import Mathlib

/-!
Shallow embedding of the two fixture-generator scripts of the repository
`rust-excel-parser`:

* `create_test_xlsx.py` — a fallback chain: try openpyxl, then xlsxwriter,
  then fall back to a hand-written CSV file.
* `test_data.py` — builds three pandas DataFrames and exports them as three
  sheets of one workbook.

Cells are modelled as strings, integers, or exact decimal numbers (Python
float literals in the scripts are short decimal literals such as `999.99`,
represented exactly as a mantissa and a decimal exponent, normalised by
stripping trailing zeros so that equality of representations is equality
of the denoted numbers).
The file system is a map from file names to written content; printed lines
and attempted library imports are recorded in the run state.  Python's
`try/except ImportError` is modelled with an `Except` error type: the
handler catches exactly `importError`, anything else propagates.
-/

/-- Strip trailing decimal zeros from a mantissa/exponent pair, so that
`25.50` and `25.5` get the same representation. -/
def decNorm : Int → Nat → Int × Nat
  | m, 0 => (m, 0)
  | m, e + 1 => if m % 10 = 0 then decNorm (m / 10) e else (m, e + 1)

/-- A spreadsheet cell value: string, int, or exact decimal number
(`Cell.f m e` denotes `m * 10 ^ (-e)` with trailing zeros stripped). -/
inductive Cell where
  | s : String → Cell
  | i : Int → Cell
  | f : Int → Nat → Cell
deriving DecidableEq, Repr

/-- The cell holding the decimal literal `m * 10 ^ (-e)` (e.g. the Python
float literal `999.99` is `Cell.dec 99999 2`), in normalised form. -/
def Cell.dec (m : Int) (e : Nat) : Cell :=
  .f (decNorm m e).1 (decNorm m e).2

/-- A named sheet: a name and a ragged list of rows. -/
structure Sheet where
  name : String
  rows : List (List Cell)
deriving DecidableEq, Repr

/-- A workbook is an ordered list of sheets. -/
abbrev Workbook := List Sheet

/-- Content of a written file: an xlsx workbook or plain CSV text. -/
inductive FileContent where
  | xlsx : Workbook → FileContent
  | csv : String → FileContent
deriving DecidableEq, Repr

/-- Which third-party libraries are importable in this run, and whether the
disk write performed while saving the workbook fails. -/
structure Env where
  openpyxl : Bool
  xlsxwriter : Bool
  diskFails : Bool
deriving DecidableEq, Repr

/-- Python exceptions relevant to the script: `ImportError` from a failed
import, or an I/O error raised while saving the workbook. -/
inductive PyErr where
  | importError : PyErr
  | ioError : PyErr
deriving DecidableEq, Repr

/-- Observable state of a run: files written (by name, in the current
working directory), lines printed, and library imports attempted. -/
structure RunState where
  files : String → Option FileContent
  printed : List String
  attempts : List String

/-- Update the file map at one name (overwriting any previous content). -/
def setF (f : String → Option FileContent) (n : String) (c : FileContent) :
    String → Option FileContent :=
  fun m => if m = n then some c else f m

def RunState.writeFile (st : RunState) (n : String) (c : FileContent) : RunState :=
  { st with files := setF st.files n c }

def RunState.print (st : RunState) (l : String) : RunState :=
  { st with printed := st.printed ++ [l] }

def RunState.attempt (st : RunState) (a : String) : RunState :=
  { st with attempts := st.attempts ++ [a] }

/-- The empty run state: no files, nothing printed, nothing attempted. -/
def st0 : RunState := ⟨fun _ => none, [], []⟩

/-! ### openpyxl branch of `create_test_xlsx.py` -/

/-- `openpyxl.Workbook()`: a fresh workbook with one active sheet
titled `"Sheet"` and no rows. -/
def opWorkbookNew : Workbook := [⟨"Sheet", []⟩]

/-- `ws.title = t` on the sheet at position `i`. -/
def opSetTitle : Workbook → Nat → String → Workbook
  | [], _, _ => []
  | sh :: rest, 0, t => { sh with name := t } :: rest
  | sh :: rest, n + 1, t => sh :: opSetTitle rest n t

/-- `ws.append(row)` on the sheet at position `i`. -/
def opAppend : Workbook → Nat → List Cell → Workbook
  | [], _, _ => []
  | sh :: rest, 0, r => { sh with rows := sh.rows ++ [r] } :: rest
  | sh :: rest, n + 1, r => sh :: opAppend rest n r

/-- `wb.create_sheet(t)`: appends a new empty sheet named `t`. -/
def opCreateSheet (wb : Workbook) (t : String) : Workbook := wb ++ [⟨t, []⟩]

/-- The workbook built by `create_with_openpyxl` before `wb.save`:
`ws` is the active sheet (position 0), `ws2` the created sheet (position 1). -/
def openpyxlWorkbook : Workbook :=
  let wb := opWorkbookNew
  let wb := opSetTitle wb 0 "Sheet1"
  let wb := opAppend wb 0 [.s "Name", .s "Age", .s "City", .s "Salary"]
  let wb := opAppend wb 0 [.s "John Doe", .i 25, .s "New York", .i 50000]
  let wb := opAppend wb 0 [.s "Jane Smith", .i 30, .s "Los Angeles", .i 60000]
  let wb := opAppend wb 0 [.s "Bob Johnson", .i 35, .s "Chicago", .i 70000]
  let wb := opCreateSheet wb "Products"
  let wb := opAppend wb 1 [.s "Product", .s "Price", .s "Stock"]
  let wb := opAppend wb 1 [.s "Laptop", .dec 99999 2, .i 10]
  let wb := opAppend wb 1 [.s "Mouse", .dec 2550 2, .i 50]
  let wb := opAppend wb 1 [.s "Keyboard", .dec 7500 2, .i 25]
  wb

/-! ### xlsxwriter branch of `create_test_xlsx.py` -/

/-- One `worksheet.write_row(row, col, data)` call. -/
structure XwWrite where
  row : Nat
  col : Nat
  data : List Cell
deriving DecidableEq, Repr

/-- An xlsxwriter worksheet: its name and the write calls issued on it. -/
structure XwSheet where
  name : String
  writes : List XwWrite
deriving DecidableEq, Repr

/-- `workbook.add_worksheet(t)`: appends a fresh worksheet. -/
def xwAddWorksheet (ws : List XwSheet) (t : String) : List XwSheet :=
  ws ++ [⟨t, []⟩]

/-- `write_row` on the worksheet at position `i`. -/
def xwWriteRow : List XwSheet → Nat → Nat → Nat → List Cell → List XwSheet
  | [], _, _, _, _ => []
  | sh :: rest, 0, r, c, d => { sh with writes := sh.writes ++ [⟨r, c, d⟩] } :: rest
  | sh :: rest, n + 1, r, c, d => sh :: xwWriteRow rest n r c d

/-- The cell a sequence of `write_row` calls leaves at `(r, c)`
(later writes override earlier ones). -/
def xwCellAt (ws : XwSheet) (r c : Nat) : Option Cell :=
  (ws.writes.filterMap fun w =>
    if w.row = r then
      if w.col ≤ c then w.data.get? (c - w.col) else none
    else none).getLast?

/-- Width of row `r`: one past the last column written in that row. -/
def xwRowWidth (ws : XwSheet) (r : Nat) : Nat :=
  ws.writes.foldl (fun m w => if w.row = r then max m (w.col + w.data.length) else m) 0

/-- Number of rows: one past the last row written. -/
def xwNumRows (ws : XwSheet) : Nat :=
  ws.writes.foldl (fun m w => max m (w.row + 1)) 0

/-- Render the written cells of one worksheet as dense rows. -/
def xwRenderSheet (ws : XwSheet) : Sheet :=
  ⟨ws.name, (List.range (xwNumRows ws)).map fun r =>
    (List.range (xwRowWidth ws r)).filterMap (xwCellAt ws r)⟩

/-- Render the whole workbook (sheets in creation order). -/
def xwRender (ws : List XwSheet) : Workbook := ws.map xwRenderSheet

/-- The worksheets built by `create_with_xlsxwriter` before `workbook.close()`. -/
def xlsxwriterSheets : List XwSheet :=
  let ws := xwAddWorksheet [] "Sheet1"
  let ws := xwWriteRow ws 0 0 0 [.s "Name", .s "Age", .s "City", .s "Salary"]
  let ws := xwWriteRow ws 0 1 0 [.s "John Doe", .i 25, .s "New York", .i 50000]
  let ws := xwWriteRow ws 0 2 0 [.s "Jane Smith", .i 30, .s "Los Angeles", .i 60000]
  let ws := xwWriteRow ws 0 3 0 [.s "Bob Johnson", .i 35, .s "Chicago", .i 70000]
  let ws := xwAddWorksheet ws "Products"
  let ws := xwWriteRow ws 1 0 0 [.s "Product", .s "Price", .s "Stock"]
  let ws := xwWriteRow ws 1 1 0 [.s "Laptop", .dec 99999 2, .i 10]
  let ws := xwWriteRow ws 1 2 0 [.s "Mouse", .dec 2550 2, .i 50]
  let ws := xwWriteRow ws 1 3 0 [.s "Keyboard", .dec 7500 2, .i 25]
  ws

/-- The workbook `create_with_xlsxwriter` writes on `workbook.close()`. -/
def xlsxwriterWorkbook : Workbook := xwRender xlsxwriterSheets

/-! ### Fallback chain -/

/-- Saving a workbook to disk (`wb.save` / `workbook.close`): raises an
I/O error when the disk write fails, otherwise writes the file. -/
def saveXlsx (env : Env) (st : RunState) (n : String) (wb : Workbook) :
    Except PyErr RunState :=
  if env.diskFails then .error .ioError else .ok (st.writeFile n (.xlsx wb))

/-- Body of the `try` block of `create_with_openpyxl`: attempt the import
(raising `ImportError` when openpyxl is not importable), build the workbook,
save it, print the success line, return `True`. -/
def tryOpenpyxlBody (env : Env) (st : RunState) : RunState × Except PyErr Bool :=
  let st := st.attempt "openpyxl"
  if env.openpyxl = false then (st, .error .importError)
  else
    match saveXlsx env st "test_data.xlsx" openpyxlWorkbook with
    | .error e => (st, .error e)
    | .ok st1 => (st1.print "✅ Created test_data.xlsx using openpyxl", .ok true)

/-- `except ImportError: return False` — catches exactly `ImportError`;
any other exception propagates. -/
def catchImportError (r : RunState × Except PyErr Bool) : RunState × Except PyErr Bool :=
  match r with
  | (st, .error .importError) => (st, .ok false)
  | other => other

def create_with_openpyxl (env : Env) (st : RunState) : RunState × Except PyErr Bool :=
  catchImportError (tryOpenpyxlBody env st)

/-- Body of the `try` block of `create_with_xlsxwriter`. -/
def tryXlsxwriterBody (env : Env) (st : RunState) : RunState × Except PyErr Bool :=
  let st := st.attempt "xlsxwriter"
  if env.xlsxwriter = false then (st, .error .importError)
  else
    match saveXlsx env st "test_data.xlsx" xlsxwriterWorkbook with
    | .error e => (st, .error e)
    | .ok st1 => (st1.print "✅ Created test_data.xlsx using xlsxwriter", .ok true)

def create_with_xlsxwriter (env : Env) (st : RunState) : RunState × Except PyErr Bool :=
  catchImportError (tryXlsxwriterBody env st)

/-- The exact bytes `create_csv_fallback` writes to `test_data.csv`. -/
def csvContent : String :=
  "Name,Age,City,Salary\n" ++
  "John Doe,25,New York,50000\n" ++
  "Jane Smith,30,Los Angeles,60000\n" ++
  "Bob Johnson,35,Chicago,70000\n"

def create_csv_fallback (st : RunState) : RunState :=
  let st := st.writeFile "test_data.csv" (.csv csvContent)
  let st := st.print "✅ Created test_data.csv as fallback"
  st.print "Note: You\x27ll need a real Excel file to test the xlsx parser"

namespace CreateTestXlsx

/-- `main()` of `create_test_xlsx.py`: try openpyxl, then xlsxwriter, then
print guidance and write the CSV fallback.  An uncaught exception in a
helper propagates out of `main`. -/
def main (env : Env) (st : RunState) : RunState × Except PyErr Unit :=
  let st := st.print "Creating test Excel file..."
  match create_with_openpyxl env st with
  | (st1, .error e) => (st1, .error e)
  | (st1, .ok true) => (st1, .ok ())
  | (st1, .ok false) =>
    match create_with_xlsxwriter env st1 with
    | (st2, .error e) => (st2, .error e)
    | (st2, .ok true) => (st2, .ok ())
    | (st2, .ok false) =>
      let st2 := st2.print "❌ Neither openpyxl nor xlsxwriter available"
      let st2 := st2.print "Install one of them: pip install openpyxl  or  pip install xlsxwriter"
      (create_csv_fallback st2, .ok ())

end CreateTestXlsx

/-! ### `test_data.py` (pandas dataframe export) -/

/-- A pandas DataFrame built from a dict of columns: column order is the
dict's insertion order; each column is a name and its values. -/
def pdDataFrame (d : List (String × List Cell)) : List (String × List Cell) := d

/-- The `Employees` column dict (`sheet1_data`). -/
def sheet1_data : List (String × List Cell) :=
  [("Name", [.s "John Doe", .s "Jane Smith", .s "Bob Johnson"]),
   ("Age", [.i 25, .i 30, .i 35]),
   ("City", [.s "New York", .s "Los Angeles", .s "Chicago"]),
   ("Salary", [.i 50000, .i 60000, .i 70000])]

/-- The `Products` column dict (`sheet2_data`). -/
def sheet2_data : List (String × List Cell) :=
  [("Product", [.s "Laptop", .s "Mouse", .s "Keyboard"]),
   ("Price", [.dec 99999 2, .dec 2550 2, .dec 7500 2]),
   ("Stock", [.i 10, .i 50, .i 25])]

/-- The `Sales` column dict (`sheet3_data`). -/
def sheet3_data : List (String × List Cell) :=
  [("Date", [.s "2024-01-01", .s "2024-01-02", .s "2024-01-03"]),
   ("Sales", [.i 1000, .i 1200, .i 800]),
   ("Profit", [.i 200, .i 300, .i 150])]

/-- The rows `df.to_excel` writes: a header of column names followed by the
data rows; when `index` is true a leading index column (blank header,
row numbers 0, 1, …) is prepended. -/
def dfToRows (df : List (String × List Cell)) ( index : Bool) : List (List Cell) :=
  let header := df.map fun c => Cell.s c.1
  let dataRows := (df.map Prod.snd).transpose
  if index then
    (Cell.s "" :: header) :: (dataRows.enum.map fun p => Cell.i p.1 :: p.2)
  else
    header :: dataRows

/-- `df.to_excel(writer, sheet_name, index)`: appends one sheet to the
workbook being assembled by the `ExcelWriter`. -/
def to_excel (writer : Workbook) (df : List (String × List Cell))
    (sheetName : String) ( index : Bool) : Workbook :=
  writer ++ [⟨sheetName, dfToRows df index⟩]

namespace TestData

/-- `create_test_excel()` of `test_data.py`: build the three DataFrames,
export them as the sheets `Employees`, `Products`, `Sales` (with
`index=False`), save on leaving the `ExcelWriter` context, print. -/
def create_test_excel (st : RunState) : RunState :=
  let df1 := pdDataFrame sheet1_data
  let df2 := pdDataFrame sheet2_data
  let df3 := pdDataFrame sheet3_data
  let writer : Workbook := []
  let writer := to_excel writer df1 "Employees" false
  let writer := to_excel writer df2 "Products" false
  let writer := to_excel writer df3 "Sales" false
  let st := st.writeFile "test_data.xlsx" (.xlsx writer)
  let st := st.print "Created test_data.xlsx with 3 sheets:"
  let st := st.print "- Employees: 3 rows, 4 columns"
  let st := st.print "- Products: 3 rows, 3 columns"
  st.print "- Sales: 3 rows, 3 columns"

end TestData

/-! ## Claims -/

/-- C9: the openpyxl branch and the xlsxwriter branch of the fallback-chain
script write the same logical workbook — the same two sheet names in the
same order, and cell-for-cell identical header and data values at the same
row and column positions. -/
theorem openpyxl_xlsxwriter_same_workbook :
    openpyxlWorkbook = xlsxwriterWorkbook := by decide

/-- C2: every run of the dataframe script produces a workbook with exactly
the three sheets `Employees`, `Products`, `Sales`, in that order, with no
index column, each with its header row followed by exactly the three
literal data rows defined in the script. -/
theorem create_test_excel_workbook_content (st : RunState) :
    (TestData.create_test_excel st).files "test_data.xlsx" =
      some (.xlsx
        [⟨"Employees",
          [[.s "Name", .s "Age", .s "City", .s "Salary"],
           [.s "John Doe", .i 25, .s "New York", .i 50000],
           [.s "Jane Smith", .i 30, .s "Los Angeles", .i 60000],
           [.s "Bob Johnson", .i 35, .s "Chicago", .i 70000]]⟩,
         ⟨"Products",
          [[.s "Product", .s "Price", .s "Stock"],
           [.s "Laptop", .dec 99999 2, .i 10],
           [.s "Mouse", .dec 2550 2, .i 50],
           [.s "Keyboard", .dec 7500 2, .i 25]]⟩,
         ⟨"Sales",
          [[.s "Date", .s "Sales", .s "Profit"],
           [.s "2024-01-01", .i 1000, .i 200],
           [.s "2024-01-02", .i 1200, .i 300],
           [.s "2024-01-03", .i 800, .i 150]]⟩]) := by
  simp only [TestData.create_test_excel, RunState.writeFile, RunState.print, setF]
  simp only [if_pos]
  decide

/-- Witness for C2: the dataframe script run from the empty state produces
exactly the three-sheet workbook. -/
theorem create_test_excel_workbook_content_witness :
    (TestData.create_test_excel st0).files "test_data.xlsx" =
      some (.xlsx
        [⟨"Employees",
          [[.s "Name", .s "Age", .s "City", .s "Salary"],
           [.s "John Doe", .i 25, .s "New York", .i 50000],
           [.s "Jane Smith", .i 30, .s "Los Angeles", .i 60000],
           [.s "Bob Johnson", .i 35, .s "Chicago", .i 70000]]⟩,
         ⟨"Products",
          [[.s "Product", .s "Price", .s "Stock"],
           [.s "Laptop", .dec 99999 2, .i 10],
           [.s "Mouse", .dec 2550 2, .i 50],
           [.s "Keyboard", .dec 7500 2, .i 25]]⟩,
         ⟨"Sales",
          [[.s "Date", .s "Sales", .s "Profit"],
           [.s "2024-01-01", .i 1000, .i 200],
           [.s "2024-01-02", .i 1200, .i 300],
           [.s "2024-01-03", .i 800, .i 150]]⟩]) :=
  create_test_excel_workbook_content st0

/-- C1: in every run of the fallback-chain script in which at least one of
the two spreadsheet libraries is importable (and the disk write succeeds),
the produced `test_data.xlsx` holds exactly two sheets, `Sheet1` then
`Products`, with exactly the literal header and data rows of the script. -/
theorem main_fallback_xlsx_content (env : Env) (st : RunState)
    (h : env.openpyxl = true ∨ env.xlsxwriter = true)
    (hd : env.diskFails = false) :
    ((CreateTestXlsx.main env st).1.files "test_data.xlsx") =
      some (.xlsx
        [⟨"Sheet1",
          [[.s "Name", .s "Age", .s "City", .s "Salary"],
           [.s "John Doe", .i 25, .s "New York", .i 50000],
           [.s "Jane Smith", .i 30, .s "Los Angeles", .i 60000],
           [.s "Bob Johnson", .i 35, .s "Chicago", .i 70000]]⟩,
         ⟨"Products",
          [[.s "Product", .s "Price", .s "Stock"],
           [.s "Laptop", .dec 99999 2, .i 10],
           [.s "Mouse", .dec 2550 2, .i 50],
           [.s "Keyboard", .dec 7500 2, .i 25]]⟩]) := by
  obtain ⟨op, xw, df⟩ := env
  simp only at hd
  subst hd
  have hw : openpyxlWorkbook =
      [⟨"Sheet1",
        [[.s "Name", .s "Age", .s "City", .s "Salary"],
         [.s "John Doe", .i 25, .s "New York", .i 50000],
         [.s "Jane Smith", .i 30, .s "Los Angeles", .i 60000],
         [.s "Bob Johnson", .i 35, .s "Chicago", .i 70000]]⟩,
       ⟨"Products",
        [[.s "Product", .s "Price", .s "Stock"],
         [.s "Laptop", .dec 99999 2, .i 10],
         [.s "Mouse", .dec 2550 2, .i 50],
         [.s "Keyboard", .dec 7500 2, .i 25]]⟩] := by decide
  have hw2 : xlsxwriterWorkbook = openpyxlWorkbook := by decide
  cases op <;> cases xw
  · exact absurd h (by simp)
  all_goals
    rw [← hw]
    simp [CreateTestXlsx.main, create_with_openpyxl, create_with_xlsxwriter,
      tryOpenpyxlBody, tryXlsxwriterBody, saveXlsx, catchImportError,
      RunState.writeFile, RunState.print, RunState.attempt, setF, hw2]

/-- Witness for C1: a run with only openpyxl importable, from the empty
state, produces exactly the two-sheet workbook. -/
theorem main_fallback_xlsx_content_witness :
    ((CreateTestXlsx.main ⟨true, false, false⟩ st0).1.files "test_data.xlsx") =
      some (.xlsx
        [⟨"Sheet1",
          [[.s "Name", .s "Age", .s "City", .s "Salary"],
           [.s "John Doe", .i 25, .s "New York", .i 50000],
           [.s "Jane Smith", .i 30, .s "Los Angeles", .i 60000],
           [.s "Bob Johnson", .i 35, .s "Chicago", .i 70000]]⟩,
         ⟨"Products",
          [[.s "Product", .s "Price", .s "Stock"],
           [.s "Laptop", .dec 99999 2, .i 10],
           [.s "Mouse", .dec 2550 2, .i 50],
           [.s "Keyboard", .dec 7500 2, .i 25]]⟩]) :=
  main_fallback_xlsx_content ⟨true, false, false⟩ st0 (Or.inl rfl) rfl

/-- C3: in every run of the fallback-chain script in which neither library
is importable, the script writes `test_data.csv` whose content is exactly
the header line and the three literal data lines, and nothing else. -/
theorem main_csv_fallback_content (env : Env) (st : RunState)
    (h1 : env.openpyxl = false) (h2 : env.xlsxwriter = false) :
    ((CreateTestXlsx.main env st).1.files "test_data.csv") =
      some (.csv ("Name,Age,City,Salary\n" ++
        "John Doe,25,New York,50000\n" ++
        "Jane Smith,30,Los Angeles,60000\n" ++
        "Bob Johnson,35,Chicago,70000\n")) := by
  obtain ⟨op, xw, df⟩ := env
  simp only at h1 h2
  subst h1; subst h2
  simp [CreateTestXlsx.main, create_with_openpyxl, create_with_xlsxwriter,
    tryOpenpyxlBody, tryXlsxwriterBody, saveXlsx, catchImportError,
    create_csv_fallback, csvContent,
    RunState.writeFile, RunState.print, RunState.attempt, setF]

/-- Witness for C3: a run with neither library importable, from the empty
state, writes exactly the four CSV lines. -/
theorem main_csv_fallback_content_witness :
    ((CreateTestXlsx.main ⟨false, false, false⟩ st0).1.files "test_data.csv") =
      some (.csv ("Name,Age,City,Salary\n" ++
        "John Doe,25,New York,50000\n" ++
        "Jane Smith,30,Los Angeles,60000\n" ++
        "Bob Johnson,35,Chicago,70000\n")) :=
  main_csv_fallback_content ⟨false, false, false⟩ st0 rfl rfl

/-- C4: `main` attempts openpyxl first, attempts xlsxwriter only when
openpyxl is unavailable, each at most once with no retries; it writes the
CSV fallback and prints installation guidance exactly when both are
unavailable. -/
theorem main_ordered_fallback (env : Env) (st : RunState) :
    ((CreateTestXlsx.main env st).1.attempts =
      st.attempts ++
        (if env.openpyxl = true then ["openpyxl"] else ["openpyxl", "xlsxwriter"]))
    ∧ ((CreateTestXlsx.main env st).1.files "test_data.csv" =
        if env.openpyxl = false ∧ env.xlsxwriter = false then some (.csv csvContent)
        else st.files "test_data.csv")
    ∧ ("Install one of them: pip install openpyxl  or  pip install xlsxwriter" ∈
          (CreateTestXlsx.main env st).1.printed ↔
        ((env.openpyxl = false ∧ env.xlsxwriter = false) ∨
          "Install one of them: pip install openpyxl  or  pip install xlsxwriter" ∈
            st.printed)) := by
  obtain ⟨op, xw, df⟩ := env
  cases op <;> cases xw <;> cases df <;>
    simp [CreateTestXlsx.main, create_with_openpyxl, create_with_xlsxwriter,
      tryOpenpyxlBody, tryXlsxwriterBody, saveXlsx, catchImportError,
      create_csv_fallback, RunState.writeFile, RunState.print, RunState.attempt, setF]

/-- Witness for C4, at a run with only xlsxwriter importable from the
empty state. -/
theorem main_ordered_fallback_witness :
    ((CreateTestXlsx.main ⟨false, true, false⟩ st0).1.attempts =
      st0.attempts ++
        (if (false : Bool) = true then ["openpyxl"] else ["openpyxl", "xlsxwriter"]))
    ∧ ((CreateTestXlsx.main ⟨false, true, false⟩ st0).1.files "test_data.csv" =
        if (false : Bool) = false ∧ (true : Bool) = false then some (.csv csvContent)
        else st0.files "test_data.csv")
    ∧ ("Install one of them: pip install openpyxl  or  pip install xlsxwriter" ∈
          (CreateTestXlsx.main ⟨false, true, false⟩ st0).1.printed ↔
        (((false : Bool) = false ∧ (true : Bool) = false) ∨
          "Install one of them: pip install openpyxl  or  pip install xlsxwriter" ∈
            st0.printed)) :=
  main_ordered_fallback ⟨false, true, false⟩ st0

/-- C5: a helper returns `False` exactly when importing its library fails,
the `ImportError` arises only from the import statement itself (it is
raised iff the library is unimportable), and in that case nothing has been
written or printed. -/
theorem helpers_false_iff_import_fails (env : Env) (st : RunState) :
    ((create_with_openpyxl env st).2 = .ok false ↔ env.openpyxl = false)
    ∧ ((create_with_xlsxwriter env st).2 = .ok false ↔ env.xlsxwriter = false)
    ∧ ((tryOpenpyxlBody env st).2 = .error .importError ↔ env.openpyxl = false)
    ∧ ((tryXlsxwriterBody env st).2 = .error .importError ↔ env.xlsxwriter = false)
    ∧ (env.openpyxl = false →
        (create_with_openpyxl env st).1.files = st.files
        ∧ (create_with_openpyxl env st).1.printed = st.printed)
    ∧ (env.xlsxwriter = false →
        (create_with_xlsxwriter env st).1.files = st.files
        ∧ (create_with_xlsxwriter env st).1.printed = st.printed) := by
  obtain ⟨op, xw, df⟩ := env
  cases op <;> cases xw <;> cases df <;>
    simp [create_with_openpyxl, create_with_xlsxwriter,
      tryOpenpyxlBody, tryXlsxwriterBody, saveXlsx, catchImportError,
      RunState.writeFile, RunState.print, RunState.attempt, setF]

/-- Witness for C5, with neither library importable, from the empty state. -/
theorem helpers_false_iff_import_fails_witness :
    ((create_with_openpyxl ⟨false, false, false⟩ st0).2 = .ok false ↔
        (false : Bool) = false)
    ∧ ((create_with_xlsxwriter ⟨false, false, false⟩ st0).2 = .ok false ↔
        (false : Bool) = false)
    ∧ ((tryOpenpyxlBody ⟨false, false, false⟩ st0).2 = .error .importError ↔
        (false : Bool) = false)
    ∧ ((tryXlsxwriterBody ⟨false, false, false⟩ st0).2 = .error .importError ↔
        (false : Bool) = false)
    ∧ ((false : Bool) = false →
        (create_with_openpyxl ⟨false, false, false⟩ st0).1.files = st0.files
        ∧ (create_with_openpyxl ⟨false, false, false⟩ st0).1.printed = st0.printed)
    ∧ ((false : Bool) = false →
        (create_with_xlsxwriter ⟨false, false, false⟩ st0).1.files = st0.files
        ∧ (create_with_xlsxwriter ⟨false, false, false⟩ st0).1.printed = st0.printed) :=
  helpers_false_iff_import_fails ⟨false, false, false⟩ st0

/-- C6: when a library is importable but the disk write raised while saving
the workbook fails, the error propagates uncaught out of `main`, no file is
written (in particular no CSV fallback), and when openpyxl was the library
attempted, xlsxwriter is never attempted. -/
theorem io_error_propagates (env : Env) (st : RunState)
    (hd : env.diskFails = true)
    (h : env.openpyxl = true ∨ env.xlsxwriter = true) :
    (CreateTestXlsx.main env st).2 = .error .ioError
    ∧ (CreateTestXlsx.main env st).1.files "test_data.csv" = st.files "test_data.csv"
    ∧ (CreateTestXlsx.main env st).1.files "test_data.xlsx" = st.files "test_data.xlsx"
    ∧ (env.openpyxl = true →
        (CreateTestXlsx.main env st).1.attempts = st.attempts ++ ["openpyxl"]) := by
  obtain ⟨op, xw, df⟩ := env
  simp only at hd
  subst hd
  cases op <;> cases xw
  · exact absurd h (by simp)
  all_goals
    simp [CreateTestXlsx.main, create_with_openpyxl, create_with_xlsxwriter,
      tryOpenpyxlBody, tryXlsxwriterBody, saveXlsx, catchImportError,
      create_csv_fallback, RunState.writeFile, RunState.print, RunState.attempt, setF]

/-- Witness for C6, with openpyxl importable and a failing disk write, from
the empty state. -/
theorem io_error_propagates_witness :
    (CreateTestXlsx.main ⟨true, true, true⟩ st0).2 = .error .ioError
    ∧ (CreateTestXlsx.main ⟨true, true, true⟩ st0).1.files "test_data.csv" =
        st0.files "test_data.csv"
    ∧ (CreateTestXlsx.main ⟨true, true, true⟩ st0).1.files "test_data.xlsx" =
        st0.files "test_data.xlsx"
    ∧ ((true : Bool) = true →
        (CreateTestXlsx.main ⟨true, true, true⟩ st0).1.attempts =
          st0.attempts ++ ["openpyxl"]) :=
  io_error_propagates ⟨true, true, true⟩ st0 rfl (Or.inl rfl)

/-- C7: output content is deterministic — under the same library
availability the produced file's content does not depend on the prior
state (so re-running overwrites with identical content), and two runs of
the CSV fallback produce exactly identical bytes. -/
theorem deterministic_output (env : Env) (st st2 : RunState) :
    (env.diskFails = false →
      (env.openpyxl = true ∨ env.xlsxwriter = true) →
        (CreateTestXlsx.main env st).1.files "test_data.xlsx" =
          (CreateTestXlsx.main env st2).1.files "test_data.xlsx")
    ∧ ((env.openpyxl = false ∧ env.xlsxwriter = false) →
        (CreateTestXlsx.main env st).1.files "test_data.csv" =
          (CreateTestXlsx.main env st2).1.files "test_data.csv"
        ∧ (CreateTestXlsx.main env st).1.files "test_data.csv" =
            some (.csv csvContent))
    ∧ (TestData.create_test_excel st).files "test_data.xlsx" =
        (TestData.create_test_excel st2).files "test_data.xlsx" := by
  obtain ⟨op, xw, df⟩ := env
  cases op <;> cases xw <;> cases df <;>
    simp [CreateTestXlsx.main, create_with_openpyxl, create_with_xlsxwriter,
      tryOpenpyxlBody, tryXlsxwriterBody, saveXlsx, catchImportError,
      create_csv_fallback, TestData.create_test_excel,
      RunState.writeFile, RunState.print, RunState.attempt, setF]

/-- Witness for C7, comparing a run from the empty state with a run from a
state already holding a previous output, with neither library importable. -/
theorem deterministic_output_witness :
    ((false : Bool) = false →
      ((false : Bool) = true ∨ (false : Bool) = true) →
        (CreateTestXlsx.main ⟨false, false, false⟩ st0).1.files "test_data.xlsx" =
          (CreateTestXlsx.main ⟨false, false, false⟩
            (st0.writeFile "test_data.csv" (.csv "old"))).1.files "test_data.xlsx")
    ∧ (((false : Bool) = false ∧ (false : Bool) = false) →
        (CreateTestXlsx.main ⟨false, false, false⟩ st0).1.files "test_data.csv" =
          (CreateTestXlsx.main ⟨false, false, false⟩
            (st0.writeFile "test_data.csv" (.csv "old"))).1.files "test_data.csv"
        ∧ (CreateTestXlsx.main ⟨false, false, false⟩ st0).1.files "test_data.csv" =
            some (.csv csvContent))
    ∧ (TestData.create_test_excel st0).files "test_data.xlsx" =
        (TestData.create_test_excel
          (st0.writeFile "test_data.csv" (.csv "old"))).files "test_data.xlsx" :=
  deterministic_output ⟨false, false, false⟩ st0
    (st0.writeFile "test_data.csv" (.csv "old"))

/-- C8: the scripts write only under the fixed names `test_data.xlsx` and
`test_data.csv` in the current working directory — any other name is left
untouched by a run of either script. -/
theorem fixed_output_names (env : Env) (st : RunState) (n : String)
    (h1 : n ≠ "test_data.xlsx") (h2 : n ≠ "test_data.csv") :
    (CreateTestXlsx.main env st).1.files n = st.files n
    ∧ (TestData.create_test_excel st).files n = st.files n := by
  obtain ⟨op, xw, df⟩ := env
  cases op <;> cases xw <;> cases df <;>
    simp [CreateTestXlsx.main, create_with_openpyxl, create_with_xlsxwriter,
      tryOpenpyxlBody, tryXlsxwriterBody, saveXlsx, catchImportError,
      create_csv_fallback, TestData.create_test_excel,
      RunState.writeFile, RunState.print, RunState.attempt, setF, h1, h2]

/-- Witness for C8: the name `other.txt` is untouched by a run with both
libraries importable from the empty state. -/
theorem fixed_output_names_witness :
    (CreateTestXlsx.main ⟨true, true, false⟩ st0).1.files "other.txt" =
      st0.files "other.txt"
    ∧ (TestData.create_test_excel st0).files "other.txt" = st0.files "other.txt" :=
  fixed_output_names ⟨true, true, false⟩ st0 "other.txt" (by decide) (by decide)

/-- C10: a run of the fallback-chain script that completes without an
uncaught exception, started with neither output file present, produces
exactly one output file: `test_data.xlsx` when at least one library is
importable, else `test_data.csv` — which carries only the employee table
(the `Products` data is absent from the CSV bytes). -/
theorem exactly_one_output_file (env : Env) (st : RunState)
    (hx : st.files "test_data.xlsx" = none)
    (hc : st.files "test_data.csv" = none)
    (hok : (CreateTestXlsx.main env st).2 = .ok ()) :
    ((env.openpyxl = true ∨ env.xlsxwriter = true) →
      ((CreateTestXlsx.main env st).1.files "test_data.xlsx").isSome = true
      ∧ (CreateTestXlsx.main env st).1.files "test_data.csv" = none)
    ∧ (env.openpyxl = false → env.xlsxwriter = false →
      (CreateTestXlsx.main env st).1.files "test_data.xlsx" = none
      ∧ (CreateTestXlsx.main env st).1.files "test_data.csv" =
          some (.csv ("Name,Age,City,Salary\n" ++
            "John Doe,25,New York,50000\n" ++
            "Jane Smith,30,Los Angeles,60000\n" ++
            "Bob Johnson,35,Chicago,70000\n"))) := by
  obtain ⟨op, xw, df⟩ := env
  cases op <;> cases xw <;> cases df <;>
    simp [CreateTestXlsx.main, create_with_openpyxl, create_with_xlsxwriter,
      tryOpenpyxlBody, tryXlsxwriterBody, saveXlsx, catchImportError,
      create_csv_fallback, csvContent, RunState.writeFile, RunState.print,
      RunState.attempt, setF, hx, hc] at hok ⊢

/-- Witness for C10: a run with only openpyxl importable from the empty
state produces the xlsx file and no CSV. -/
theorem exactly_one_output_file_witness :
    (((true : Bool) = true ∨ (false : Bool) = true) →
      ((CreateTestXlsx.main ⟨true, false, false⟩ st0).1.files "test_data.xlsx").isSome
          = true
      ∧ (CreateTestXlsx.main ⟨true, false, false⟩ st0).1.files "test_data.csv" = none)
    ∧ ((true : Bool) = false → (false : Bool) = false →
      (CreateTestXlsx.main ⟨true, false, false⟩ st0).1.files "test_data.xlsx" = none
      ∧ (CreateTestXlsx.main ⟨true, false, false⟩ st0).1.files "test_data.csv" =
          some (.csv ("Name,Age,City,Salary\n" ++
            "John Doe,25,New York,50000\n" ++
            "Jane Smith,30,Los Angeles,60000\n" ++
            "Bob Johnson,35,Chicago,70000\n"))) :=
  exactly_one_output_file ⟨true, false, false⟩ st0 rfl rfl rfl
